import Mathlib

/-!
Verification development for the ExoHabitabilityLab scoring core.

The Python domain layer (entities, scoring factors, configuration and the
scoring engine) is shallowly embedded below.  Python floats are modelled as
exact rationals (`ℚ`); the few places where the source computes square roots
or real powers (`math.sqrt`, `**`) are modelled over `ℝ`.  Optional values
(`None`) are `Option`, and code paths on which the Python source raises an
exception are modelled with `Except String`.  Display-only fields of the
source data classes (formatted input values, units, optimal-range strings,
reference lists) are not part of the embedding; every field a scoring or
control-flow decision reads is.
-/

namespace ExoHab

/-! ## Domain entities: exoplanet -/

/-- Classification of exoplanets by size (`PlanetType` in `exoplanet.py`). -/
inductive PlanetType where
  | terrestrial
  | superEarth
  | subNeptune
  | neptuneLike
  | gasGiant
  | unknown
deriving DecidableEq

/-- Orbital characteristics (`OrbitalParameters` in `exoplanet.py`); every
field is optional, `none` meaning the measurement is absent. -/
structure OrbitalParameters where
  period_days : Option ℚ
  semi_major_axis_au : Option ℚ
  eccentricity : Option ℚ
  inclination_deg : Option ℚ
deriving DecidableEq

/-- Physical characteristics (`PhysicalParameters` in `exoplanet.py`). -/
structure PhysicalParameters where
  radius_earth : Option ℚ
  radius_jupiter : Option ℚ
  mass_earth : Option ℚ
  mass_jupiter : Option ℚ
  density_g_cm3 : Option ℚ
  equilibrium_temp_k : Option ℚ
deriving DecidableEq

/-- Surface gravity relative to Earth (`PhysicalParameters.surface_gravity_earth`):
`mass / radius²`, `none` when either input is missing or `radius ≤ 0`. -/
def PhysicalParameters.surface_gravity_earth (p : PhysicalParameters) : Option ℚ :=
  match p.mass_earth, p.radius_earth with
  | some m, some r => if r ≤ 0 then none else some (m / r ^ 2)
  | _, _ => none

/-- Escape velocity in km/s (`PhysicalParameters.escape_velocity_km_s`):
`11.186·√(M/R)`.  The source guards `radius ≤ 0` (returns `None`) but not a
negative mass, on which Python's `math.sqrt` raises `ValueError`. -/
noncomputable def PhysicalParameters.escape_velocity_km_s (p : PhysicalParameters) :
    Except String (Option ℝ) :=
  match p.mass_earth, p.radius_earth with
  | some m, some r =>
      if r ≤ 0 then .ok none
      else if m < 0 then .error "math domain error"
      else .ok (some ((11186 / 1000 : ℝ) * Real.sqrt ((m / r : ℚ) : ℝ)))
  | _, _ => .ok none

/-- Radius-threshold classification (`PhysicalParameters.classify_planet_type`). -/
def PhysicalParameters.classify_planet_type (p : PhysicalParameters) : PlanetType :=
  match p.radius_earth with
  | none => .unknown
  | some r =>
      if r < 1 then .terrestrial
      else if r < 7/4 then .superEarth
      else if r < 7/2 then .subNeptune
      else if r < 6 then .neptuneLike
      else .gasGiant

/-- Bulk density estimate (`PhysicalParameters.estimate_density`): the
measured density when present, else `5.514·M/R³`.  The source has no guard on
the radius here, so `radius_earth = 0` (with a mass present and no measured
density) reaches a float division by zero, which raises in Python. -/
def PhysicalParameters.estimate_density (p : PhysicalParameters) :
    Except String (Option ℚ) :=
  match p.density_g_cm3 with
  | some d => .ok (some d)
  | none =>
      match p.mass_earth, p.radius_earth with
      | some m, some r =>
          if r = 0 then .error "float division by zero"
          else .ok (some (5514/1000 * m / r ^ 3))
      | _, _ => .ok none

/-- Exoplanet domain entity (`ExoplanetEntity`); fields the scoring core
never reads (discovery metadata, coordinates, external ids) are omitted. -/
structure ExoplanetEntity where
  id : Option ℤ
  name : String
  host_star_name : String
  orbital : OrbitalParameters
  physical : PhysicalParameters
deriving DecidableEq

/-! ## Domain entities: star -/

/-- Main spectral classes (`SpectralClass` in `star.py`). -/
inductive SpectralClass where
  | O | B | A | F | G | K | M | L | T | Y | UNKNOWN
deriving DecidableEq

/-- Morgan-Keenan luminosity classes (`LuminosityClass` in `star.py`). -/
inductive LuminosityClass where
  | Ia | Ib | II | III | IV | V | VI | VII | UNKNOWN
deriving DecidableEq

/-- Host star domain entity (`StarEntity`). -/
structure StarEntity where
  name : String
  spectral_type : Option String
  mass_solar : Option ℚ
  radius_solar : Option ℚ
  temperature_k : Option ℚ
  luminosity_solar : Option ℚ
  luminosity_log : Option ℚ
  metallicity : Option ℚ
  age_gyr : Option ℚ
deriving DecidableEq

/-- Mapping of an (upper-cased) leading character to a spectral class; the
source's `SpectralClass(first_char)` with `ValueError → UNKNOWN`. -/
def spectralClassOfChar (c : Char) : SpectralClass :=
  if c = 'O' then .O
  else if c = 'B' then .B
  else if c = 'A' then .A
  else if c = 'F' then .F
  else if c = 'G' then .G
  else if c = 'K' then .K
  else if c = 'M' then .M
  else if c = 'L' then .L
  else if c = 'T' then .T
  else if c = 'Y' then .Y
  else .UNKNOWN

/-- Primary spectral class (`StarEntity.spectral_class`).  The source tests
`if not self.spectral_type`, which is also true for the empty string. -/
def StarEntity.spectral_class (st : StarEntity) : SpectralClass :=
  match st.spectral_type with
  | none => .UNKNOWN
  | some s =>
      match s.data with
      | [] => .UNKNOWN
      | c :: _ => spectralClassOfChar c.toUpper

/-- Substring test on character lists (Python's `needle in haystack`). -/
def containsSeq (needle hay : List Char) : Bool :=
  hay.tails.any (fun t => needle.isPrefixOf t)

/-- Luminosity class from the spectral-type string
(`StarEntity.luminosity_class`): the source upper-cases the string and checks
the roman numerals in the fixed order VII, VI, IV, III, II, IB, IA, V. -/
def StarEntity.luminosity_class (st : StarEntity) : LuminosityClass :=
  match st.spectral_type with
  | none => .UNKNOWN
  | some s =>
      match s.data with
      | [] => .UNKNOWN
      | _ :: _ =>
          let spec := s.data.map Char.toUpper
          if containsSeq [ 'V', 'I', 'I' ] spec then .VII
          else if containsSeq [ 'V', 'I' ] spec then .VI
          else if containsSeq [ 'I', 'V' ] spec then .IV
          else if containsSeq [ 'I', 'I', 'I' ] spec then .III
          else if containsSeq [ 'I', 'I' ] spec then .II
          else if containsSeq [ 'I', 'B' ] spec then .Ib
          else if containsSeq [ 'I', 'A' ] spec then .Ia
          else if containsSeq [ 'V' ] spec then .V
          else .UNKNOWN

/-- Luminosity in linear solar units (`StarEntity.luminosity_linear`):
the direct value if present, else `10^luminosity_log` (a real power). -/
noncomputable def StarEntity.luminosity_linear (st : StarEntity) : Option ℝ :=
  match st.luminosity_solar with
  | some l => some ((l : ℝ))
  | none =>
      match st.luminosity_log with
      | some lg => some ((10 : ℝ) ^ ((lg : ℚ) : ℝ))
      | none => none

/-- Luminosity estimate (`StarEntity.estimate_luminosity`): the linear value
when available, else the Stefan-Boltzmann scaling `R²·(T/5778)⁴`. -/
noncomputable def StarEntity.estimate_luminosity (st : StarEntity) : Option ℝ :=
  match st.luminosity_linear with
  | some l => some l
  | none =>
      match st.radius_solar, st.temperature_k with
      | some r, some T => some (((r ^ 2 * (T / 5778) ^ 4 : ℚ) : ℝ))
      | _, _ => none

/-! Kopparapu et al. stellar-flux polynomials used by
`StarEntity.calculate_habitable_zone`, in the offset variable
`t_star = teff - 5780`, with the source's exact decimal coefficients. -/

/-- Recent-Venus flux boundary (optimistic inner). -/
def sRecentVenus (t : ℚ) : ℚ :=
  17763/10000 + 14335/100000000 * t + 33954/10000000000000 * t ^ 2
    - 76364/10000000000000000 * t ^ 3 - 11950/10000000000000000000 * t ^ 4

/-- Runaway-greenhouse flux boundary (conservative inner). -/
def sRunawayGreenhouse (t : ℚ) : ℚ :=
  10385/10000 + 12456/100000000 * t + 14612/1000000000000 * t ^ 2
    - 76345/10000000000000000 * t ^ 3 - 17511/10000000000000000000 * t ^ 4

/-- Maximum-greenhouse flux boundary (conservative outer). -/
def sMaxGreenhouse (t : ℚ) : ℚ :=
  3507/10000 + 59578/1000000000 * t + 16707/10000000000000 * t ^ 2
    - 30058/10000000000000000 * t ^ 3 - 51925/100000000000000000000 * t ^ 4

/-- Early-Mars flux boundary (optimistic outer). -/
def sEarlyMars (t : ℚ) : ℚ :=
  3207/10000 + 54471/1000000000 * t + 15275/10000000000000 * t ^ 2
    - 21709/10000000000000000 * t ^ 3 - 38282/100000000000000000000 * t ^ 4

/-- Effective temperature used by the habitable-zone computation: the source
evaluates `self.temperature_k if self.temperature_k else 5778`, a truthiness
test, so a temperature of exactly `0.0` also falls back to 5778. -/
def StarEntity.hzTeff (st : StarEntity) : ℚ :=
  match st.temperature_k with
  | some T => if T = 0 then 5778 else T
  | none => 5778

/-- Habitable-zone boundaries (`StarEntity.calculate_habitable_zone`):
`(conservative_inner, conservative_outer, optimistic_inner, optimistic_outer)`
with each distance `√L / √S`.  `none` when the luminosity cannot be
determined or some flux boundary is non-positive; a negative luminosity
reaches Python's `math.sqrt`, which raises. -/
noncomputable def StarEntity.calculate_habitable_zone (st : StarEntity) :
    Except String (Option (ℝ × ℝ × ℝ × ℝ)) :=
  match st.estimate_luminosity with
  | none => .ok none
  | some L =>
      if L < 0 then .error "math domain error"
      else
        let ts := st.hzTeff - 5780
        if 0 < sRunawayGreenhouse ts ∧ 0 < sMaxGreenhouse ts ∧
            0 < sRecentVenus ts ∧ 0 < sEarlyMars ts then
          .ok (some
            (Real.sqrt L / Real.sqrt ((sRunawayGreenhouse ts : ℚ) : ℝ),
             Real.sqrt L / Real.sqrt ((sMaxGreenhouse ts : ℚ) : ℝ),
             Real.sqrt L / Real.sqrt ((sRecentVenus ts : ℚ) : ℝ),
             Real.sqrt L / Real.sqrt ((sEarlyMars ts : ℚ) : ℝ)))
        else .ok none

/-- Habitable-zone position classification values returned by
`StarEntity.get_hz_position`. -/
inductive HzPosition where
  | tooHot
  | optimisticInnerEdge
  | conservativeHz
  | optimisticOuterEdge
  | tooCold
deriving DecidableEq

/-- Position of an orbital distance relative to already-computed
habitable-zone boundaries (the comparison chain of
`StarEntity.get_hz_position`; the source recomputes the same boundary tuple
internally, here it is passed in). -/
noncomputable def hzPositionOf (d : ℝ) (consInner consOuter optInner optOuter : ℝ) :
    HzPosition :=
  if d < optInner then .tooHot
  else if d < consInner then .optimisticInnerEdge
  else if d ≤ consOuter then .conservativeHz
  else if d ≤ optOuter then .optimisticOuterEdge
  else .tooCold

/-! ## Scoring base types (`base.py`, `habitability.py`) -/

/-- Five-level confidence ordinal (`ConfidenceLevel`). -/
inductive ConfidenceLevel where
  | veryLow
  | low
  | medium
  | high
  | veryHigh
deriving DecidableEq

/-- Clamp applied by `FactorResult.__post_init__`: every constructed factor
result has its score forced into [0, 1]. -/
noncomputable def clampScore (s : ℝ) : ℝ := max 0 (min 1 s)

/-- Result of evaluating a single scoring factor (`FactorResult`), keeping
the fields the engine and the claims read; the display-only strings
(input value, unit, optimal range, references) are omitted. -/
structure FactorResult where
  factor_id : String
  score : ℝ
  explanation : String
  confidence : ConfidenceLevel
  is_applicable : Bool
  missing_data : Option String

/-- The `BaseScoringFactor._create_missing_data_result` helper: neutral
score 0.5, very-low confidence, not applicable. -/
noncomputable def missingDataResult (factorId missingField : String) : FactorResult :=
  { factor_id := factorId
    score := clampScore (1/2)
    explanation := "Required data is not available. Assigned neutral score."
    confidence := .veryLow
    is_applicable := false
    missing_data := some missingField }

/-- An applicable factor result with a clamped score (the common
`FactorResult(...)` construction sites of the factor implementations). -/
noncomputable def okResult (factorId : String) (score : ℝ) (expl : String)
    (conf : ConfidenceLevel) : FactorResult :=
  { factor_id := factorId
    score := clampScore score
    explanation := expl
    confidence := conf
    is_applicable := true
    missing_data := none }

/-- A scoring factor plugin as the engine sees it: the identifying metadata
plus the evaluation function; Python exceptions raised inside `evaluate`
appear as `Except.error` with the exception text. -/
structure Factor where
  factor_id : String
  factor_name : String
  category : String
  evaluate : ExoplanetEntity → StarEntity → Except String FactorResult

/-! ## Scoring configuration (`config.py`) -/

/-- Weight entry for one factor (`FactorWeightConfig`); its `__post_init__`
rejects weights outside [0, 1], captured by `ValidConfig` below. -/
structure FactorWeightConfig where
  factor_id : String
  weight : ℚ
  enabled : Bool
deriving DecidableEq

/-- Complete scoring configuration (`ScoringConfig`); `factor_weights` is an
insertion-ordered mapping, modelled as an association list with distinct
keys. -/
structure ScoringConfig where
  factor_weights : List (String × FactorWeightConfig)
  normalization_method : String
  minimum_factors : ℕ
deriving DecidableEq

/-- The construction-time invariants of `ScoringConfig`: all weights are
validated into [0, 1] (`FactorWeightConfig.__post_init__`) and the
dictionary keys are distinct. -/
def ValidConfig (cfg : ScoringConfig) : Prop :=
  (∀ p ∈ cfg.factor_weights, 0 ≤ p.2.weight ∧ p.2.weight ≤ 1) ∧
    (cfg.factor_weights.map (·.1)).Nodup

instance : DecidablePred ValidConfig := fun cfg => by
  unfold ValidConfig; infer_instance

/-- Weight lookup (`ScoringConfig.get_weight`): the configured weight if the
factor is enabled, 0 if disabled or unconfigured. -/
def ScoringConfig.get_weight (cfg : ScoringConfig) (factorId : String) : ℚ :=
  match cfg.factor_weights.lookup factorId with
  | some c => if c.enabled then c.weight else 0
  | none => 0

/-- Enablement check (`ScoringConfig.is_factor_enabled`): unconfigured
factors are enabled by default. -/
def ScoringConfig.is_factor_enabled (cfg : ScoringConfig) (factorId : String) : Bool :=
  match cfg.factor_weights.lookup factorId with
  | some c => c.enabled
  | none => true

/-- Total weight of enabled factors (`ScoringConfig.get_total_weight`). -/
def ScoringConfig.get_total_weight (cfg : ScoringConfig) : ℚ :=
  ((cfg.factor_weights.filter (fun p => p.2.enabled)).map (fun p => p.2.weight)).sum

/-- Weight normalization (`ScoringConfig.normalize_weights`): enabled
factors mapped to `weight / total`; the empty mapping when the total is 0. -/
def ScoringConfig.normalize_weights (cfg : ScoringConfig) : List (String × ℚ) :=
  if cfg.get_total_weight = 0 then []
  else (cfg.factor_weights.filter (fun p => p.2.enabled)).map
    (fun p => (p.1, p.2.weight / cfg.get_total_weight))

/-! ## Factor implementations (`factors/stellar.py`, `planetary.py`,
`orbital.py`, `derived.py`)

Branch structure, thresholds and score values follow the source exactly.
Explanation strings are abridged to short static texts (the source builds
long formatted display paragraphs; no scoring or engine decision reads
them).  Where the source compares a `math.sqrt`/`**` value against a
positive threshold, the comparison is re-expressed on the (rational) powers
of both sides, which is exact for the non-negative inputs that reach it;
negative inputs, on which Python raises, are error branches. -/

/-- The `SPECTRAL_SCORES` table of `StellarTypeFactor`. -/
def spectralScores : SpectralClass → ℚ
  | .O => 5/100
  | .B => 10/100
  | .A => 20/100
  | .F => 60/100
  | .G => 95/100
  | .K => 90/100
  | .M => 45/100
  | .L => 10/100
  | .T => 5/100
  | .Y => 2/100
  | .UNKNOWN => 50/100

/-- Truthiness of an optional string (Python `not s` is true for both `None`
and the empty string). -/
def falsyStr : Option String → Bool
  | none => true
  | some s => s = ""

/-- Evaluation of `StellarTypeFactor`. -/
noncomputable def stellarTypeEvaluate (_ex : ExoplanetEntity) (st : StarEntity) :
    Except String FactorResult :=
  if falsyStr st.spectral_type then
    .ok (missingDataResult "stellar_type" "stellar_type")
  else
    let sc := st.spectral_class
    let conf :=
      if sc = .F ∨ sc = .G ∨ sc = .K ∨ sc = .M then ConfidenceLevel.high
      else if sc = .UNKNOWN then ConfidenceLevel.veryLow
      else ConfidenceLevel.medium
    .ok (okResult "stellar_type" ((spectralScores sc : ℚ) : ℝ)
      "Spectral class assessment." conf)

/-- The `LUMINOSITY_SCORES` table of `StellarLuminosityFactor`. -/
def luminosityScores : LuminosityClass → ℚ
  | .V => 1
  | .IV => 5/10
  | .VI => 7/10
  | .III => 2/10
  | .II => 1/10
  | .Ib => 5/100
  | .Ia => 2/100
  | .VII => 1/10
  | .UNKNOWN => 5/10

/-- Evaluation of `StellarLuminosityFactor`; note it never returns a
missing-data result: an unknown luminosity class still yields an applicable
result with the neutral score 0.5. -/
noncomputable def stellarLuminosityEvaluate (_ex : ExoplanetEntity) (st : StarEntity) :
    Except String FactorResult :=
  let lc := st.luminosity_class
  let conf :=
    if lc = .V then ConfidenceLevel.high
    else if lc = .IV then ConfidenceLevel.medium
    else if lc = .III ∨ lc = .II then ConfidenceLevel.high
    else if lc = .Ia ∨ lc = .Ib then ConfidenceLevel.high
    else if lc = .UNKNOWN then ConfidenceLevel.low
    else ConfidenceLevel.medium
  .ok (okResult "stellar_luminosity" ((luminosityScores lc : ℚ) : ℝ)
    "Luminosity class assessment." conf)

/-- Evaluation of `StellarAgeFactor`. -/
noncomputable def stellarAgeEvaluate (_ex : ExoplanetEntity) (st : StarEntity) :
    Except String FactorResult :=
  match st.age_gyr with
  | none => .ok (missingDataResult "stellar_age" "stellar_age_gyr")
  | some age =>
      let score : ℚ :=
        if age < 1/2 then 2/10
        else if age < 1 then 4/10
        else if age < 2 then 7/10
        else if age < 8 then 1
        else if age < 10 then 7/10
        else 4/10
      .ok (okResult "stellar_age" ((score : ℚ) : ℝ) "Stellar age assessment."
        .medium)

/-- Evaluation of `HabitableZonePositionFactor`. -/
noncomputable def habitableZonePositionEvaluate (ex : ExoplanetEntity) (st : StarEntity) :
    Except String FactorResult :=
  match ex.orbital.semi_major_axis_au with
  | none => .ok (missingDataResult "habitable_zone_position" "semi_major_axis_au")
  | some dq =>
      match st.calculate_habitable_zone with
      | .error e => .error e
      | .ok none =>
          .ok { factor_id := "habitable_zone_position"
                score := clampScore (1/2)
                explanation := "Cannot calculate habitable zone without stellar luminosity data."
                confidence := .veryLow
                is_applicable := false
                missing_data := some "stellar_luminosity" }
      | .ok (some (consInner, consOuter, optInner, optOuter)) =>
          let d : ℝ := (dq : ℝ)
          let score : ℝ :=
            match hzPositionOf d consInner consOuter optInner optOuter with
            | .conservativeHz => 1
            | .optimisticInnerEdge => 7/10
            | .optimisticOuterEdge => 7/10
            | .tooHot => max 0 (3/10 - (optInner - d) / optInner)
            | .tooCold => max 0 (3/10 - (d - optOuter) / optOuter * (1/2))
          .ok (okResult "habitable_zone_position" score
            "Habitable zone position assessment." .high)

/-- Evaluation of `PlanetRadiusFactor`. -/
noncomputable def planetRadiusEvaluate (ex : ExoplanetEntity) (_st : StarEntity) :
    Except String FactorResult :=
  match ex.physical.radius_earth with
  | none => .ok (missingDataResult "planet_radius" "planet_radius_earth")
  | some r =>
      let score : ℚ :=
        if r < 1/2 then 3/10
        else if r < 8/10 then 6/10
        else if r < 5/4 then 1
        else if r < 7/4 then 85/100
        else if r < 5/2 then 4/10
        else if r < 4 then 15/100
        else 5/100
      .ok (okResult "planet_radius" ((score : ℚ) : ℝ) "Planet radius assessment."
        .high)

/-- Evaluation of `PlanetMassFactor`. -/
noncomputable def planetMassEvaluate (ex : ExoplanetEntity) (_st : StarEntity) :
    Except String FactorResult :=
  match ex.physical.mass_earth with
  | none => .ok (missingDataResult "planet_mass" "planet_mass_earth")
  | some m =>
      let score : ℚ :=
        if m < 1/10 then 15/100
        else if m < 1/2 then 4/10
        else if m < 2 then 1
        else if m < 5 then 8/10
        else if m < 10 then 4/10
        else 1/10
      .ok (okResult "planet_mass" ((score : ℚ) : ℝ) "Planet mass assessment." .high)

/-- Evaluation of `PlanetDensityFactor`; a density-estimation failure
(division by zero in `estimate_density`) propagates as an exception. -/
noncomputable def planetDensityEvaluate (ex : ExoplanetEntity) (_st : StarEntity) :
    Except String FactorResult :=
  match ex.physical.estimate_density with
  | .error e => .error e
  | .ok none => .ok (missingDataResult "planet_density" "planet_density")
  | .ok (some d) =>
      let score : ℚ :=
        if d < 1 then 5/100
        else if d < 2 then 2/10
        else if d < 7/2 then 5/10
        else if d < 5 then 85/100
        else if d < 13/2 then 1
        else 7/10
      .ok (okResult "planet_density" ((score : ℚ) : ℝ) "Planet density assessment."
        .medium)

/-- Evaluation of `EquilibriumTemperatureFactor`. -/
noncomputable def equilibriumTemperatureEvaluate (ex : ExoplanetEntity) (_st : StarEntity) :
    Except String FactorResult :=
  match ex.physical.equilibrium_temp_k with
  | none => .ok (missingDataResult "equilibrium_temperature" "equilibrium_temp_k")
  | some temp =>
      let score : ℚ :=
        if temp < 150 then 5/100
        else if temp < 200 then 3/10
        else if temp < 230 then 6/10
        else if temp < 260 then 9/10
        else if temp < 300 then 1
        else if temp < 350 then 6/10
        else if temp < 450 then 2/10
        else 2/100
      .ok (okResult "equilibrium_temperature" ((score : ℚ) : ℝ)
        "Equilibrium temperature assessment." .medium)

/-- Evaluation of `SurfaceGravityFactor`. -/
noncomputable def surfaceGravityEvaluate (ex : ExoplanetEntity) (_st : StarEntity) :
    Except String FactorResult :=
  match ex.physical.surface_gravity_earth with
  | none => .ok (missingDataResult "surface_gravity" "surface_gravity")
  | some g =>
      let score : ℚ :=
        if g < 3/10 then 3/10
        else if g < 7/10 then 6/10
        else if g < 3/2 then 1
        else if g < 5/2 then 7/10
        else if g < 4 then 3/10
        else 1/10
      .ok (okResult "surface_gravity" ((score : ℚ) : ℝ) "Surface gravity assessment."
        .medium)

/-- Evaluation of `OrbitalEccentricityFactor` (the flux-ratio quantity the
source computes appears only inside display text and is omitted). -/
noncomputable def orbitalEccentricityEvaluate (ex : ExoplanetEntity) (_st : StarEntity) :
    Except String FactorResult :=
  match ex.orbital.eccentricity with
  | none => .ok (missingDataResult "orbital_eccentricity" "orbital_eccentricity")
  | some ecc =>
      let score : ℚ :=
        if ecc < 2/100 then 1
        else if ecc < 1/10 then 9/10
        else if ecc < 2/10 then 7/10
        else if ecc < 3/10 then 5/10
        else if ecc < 5/10 then 25/100
        else if ecc < 8/10 then 1/10
        else 2/100
      .ok (okResult "orbital_eccentricity" ((score : ℚ) : ℝ)
        "Orbital eccentricity assessment." .high)

/-- Evaluation of `TidalLockingFactor`. -/
noncomputable def tidalLockingEvaluate (ex : ExoplanetEntity) (st : StarEntity) :
    Except String FactorResult :=
  match ex.orbital.period_days, ex.orbital.semi_major_axis_au with
  | none, none =>
      .ok (missingDataResult "tidal_locking" "orbital_period or semi_major_axis")
  | operiod, osma =>
      let lockProb : ℚ :=
        match osma with
        | some a =>
            match st.temperature_k with
            | some teff =>
                if teff < 3700 then
                  if a < 5/100 then 99/100
                  else if a < 1/10 then 95/100
                  else if a < 2/10 then 7/10
                  else if a < 5/10 then 3/10
                  else 5/100
                else if teff < 5200 then
                  if a < 1/10 then 8/10
                  else if a < 3/10 then 4/10
                  else if a < 5/10 then 1/10
                  else 2/100
                else if teff < 6000 then
                  if a < 1/10 then 5/10
                  else if a < 3/10 then 1/10
                  else 1/100
                else 1/100
            | none => max 0 (1 - a / (3/10))
        | none =>
            match operiod with
            | some p =>
                if p < 10 then 9/10
                else if p < 30 then 5/10
                else if p < 100 then 2/10
                else 5/100
            | none => 0
      let score : ℚ :=
        if lockProb < 1/10 then 1
        else if lockProb < 3/10 then 9/10
        else if lockProb < 5/10 then 7/10
        else if lockProb < 7/10 then 6/10
        else if lockProb < 9/10 then 5/10
        else 4/10
      .ok (okResult "tidal_locking" ((score : ℚ) : ℝ) "Tidal locking assessment."
        .low)

/-- Evaluation of `AtmosphereRetentionFactor`.  The source derives an escape
velocity `11.2·√x` (with `x = M/R`, `x = M/M^0.27` or `x = R^3.7/R`) and
compares it against 3, 5, 8, 12 and 20 km/s; here each comparison is taken
to the appropriate power so it stays in `ℚ`
(`11.2·√x < T  ↔  x < T²·100/12544` for `x ≥ 0`, and
`m^0.73 < c ↔ m^73 < c^100`, `r^2.7 < c ↔ r^27 < c^10` for positive bases).
Inputs on which Python's `math.sqrt` or float division raises are error
branches. -/
noncomputable def atmosphereRetentionEvaluate (ex : ExoplanetEntity) (st : StarEntity) :
    Except String FactorResult :=
  match ex.physical.mass_earth, ex.physical.radius_earth with
  | none, none =>
      .ok (missingDataResult "atmosphere_retention" "planet_mass or planet_radius")
  | om, orad =>
      let base : Except String ℚ :=
        match om, orad with
        | some m, some r =>
            if r = 0 then .error "float division by zero"
            else if m / r < 0 then .error "math domain error"
            else
              let q := 12544/100 * (m / r)
              .ok (if q < 9 then 1/10
                else if q < 25 then 3/10
                else if q < 64 then 3/5
                else if q < 144 then 17/20
                else if q < 400 then 19/20
                else 4/5)
        | some m, none =>
            if m < 0 then .error "must be real number, not complex"
            else if m = 0 then .error "float division by zero"
            else
              .ok (if m ^ 73 < (900/12544 : ℚ) ^ 100 then 1/10
                else if m ^ 73 < (2500/12544 : ℚ) ^ 100 then 3/10
                else if m ^ 73 < (6400/12544 : ℚ) ^ 100 then 3/5
                else if m ^ 73 < (14400/12544 : ℚ) ^ 100 then 17/20
                else if m ^ 73 < (40000/12544 : ℚ) ^ 100 then 19/20
                else 4/5)
        | none, some r =>
            if r < 0 then .error "must be real number, not complex"
            else if r = 0 then .error "float division by zero"
            else
              .ok (if r ^ 27 < (900/12544 : ℚ) ^ 10 then 1/10
                else if r ^ 27 < (2500/12544 : ℚ) ^ 10 then 3/10
                else if r ^ 27 < (6400/12544 : ℚ) ^ 10 then 3/5
                else if r ^ 27 < (14400/12544 : ℚ) ^ 10 then 17/20
                else if r ^ 27 < (40000/12544 : ℚ) ^ 10 then 19/20
                else 4/5)
        | none, none => .ok (1/2)
      match base with
      | .error e => .error e
      | .ok b =>
          let teff := st.hzTeff
          let activityPenalty : ℚ :=
            (if teff < 3700 then 2/10 else if teff < 4500 then 1/10 else 0) +
              (match st.age_gyr with
               | some a => if a < 1 then 15/100 else 0
               | none => 0)
          let score : ℚ := max (5/100) (b - activityPenalty)
          .ok (okResult "atmosphere_retention" ((score : ℚ) : ℝ)
            "Atmosphere retention assessment." .medium)

/-- Evaluation of `MagneticFieldPotentialFactor`; note its `factor_id` is
`"magnetic_field"`, not the `"magnetic_field_potential"` key of the default
weight table.  `estimate_density` is called before the missing-data check,
so its division-by-zero exception propagates. -/
noncomputable def magneticFieldPotentialEvaluate (ex : ExoplanetEntity) (st : StarEntity) :
    Except String FactorResult :=
  match ex.physical.estimate_density with
  | .error e => .error e
  | .ok dOpt =>
      match ex.physical.mass_earth, ex.physical.radius_earth with
      | none, none =>
          .ok (missingDataResult "magnetic_field" "planet_mass or planet_radius")
      | om, orad =>
          let massScore : ℚ :=
            match om with
            | some m =>
                if m < 2/10 then 2/10
                else if m < 1/2 then 4/10
                else if m < 3/2 then 8/10
                else if m < 5 then 9/10
                else 7/10
            | none =>
                match orad with
                | some r =>
                    if r < 7/10 then 3/10
                    else if r < 13/10 then 75/100
                    else 6/10
                | none => 1/2
          let densityBonus : ℚ :=
            match dOpt with
            | some d =>
                if 5 < d then 1/10
                else if 4 < d then 5/100
                else if d < 5/2 then -(2/10)
                else 0
            | none => 0
          let agePenalty : ℚ :=
            match st.age_gyr with
            | some a =>
                if 10 < a then 15/100
                else if 8 < a then 5/100
                else if a < 1/2 then 1/10
                else 0
            | none => 0
          let tidalAdj : ℚ :=
            match ex.orbital.period_days with
            | some p => if p < 30 then (if st.hzTeff < 4000 then -(1/10) else 0) else 0
            | none => 0
          let score : ℚ := max (5/100) (min 1 (massScore + densityBonus - agePenalty + tidalAdj))
          .ok (okResult "magnetic_field" ((score : ℚ) : ℝ)
            "Magnetic field potential assessment." .low)

/-- The `StellarTypeFactor` plugin. -/
noncomputable def stellarTypeFactor : Factor :=
  ⟨"stellar_type", "Stellar Spectral Type", "stellar", stellarTypeEvaluate⟩

/-- The `StellarLuminosityFactor` plugin. -/
noncomputable def stellarLuminosityFactor : Factor :=
  ⟨"stellar_luminosity", "Stellar Luminosity Class", "stellar", stellarLuminosityEvaluate⟩

/-- The `StellarAgeFactor` plugin. -/
noncomputable def stellarAgeFactor : Factor :=
  ⟨"stellar_age", "Stellar System Age", "stellar", stellarAgeEvaluate⟩

/-- The `HabitableZonePositionFactor` plugin. -/
noncomputable def habitableZonePositionFactor : Factor :=
  ⟨"habitable_zone_position", "Habitable Zone Position", "stellar",
    habitableZonePositionEvaluate⟩

/-- The `PlanetRadiusFactor` plugin. -/
noncomputable def planetRadiusFactor : Factor :=
  ⟨"planet_radius", "Planet Radius", "planetary", planetRadiusEvaluate⟩

/-- The `PlanetMassFactor` plugin. -/
noncomputable def planetMassFactor : Factor :=
  ⟨"planet_mass", "Planet Mass", "planetary", planetMassEvaluate⟩

/-- The `PlanetDensityFactor` plugin. -/
noncomputable def planetDensityFactor : Factor :=
  ⟨"planet_density", "Planet Bulk Density", "planetary", planetDensityEvaluate⟩

/-- The `EquilibriumTemperatureFactor` plugin. -/
noncomputable def equilibriumTemperatureFactor : Factor :=
  ⟨"equilibrium_temperature", "Equilibrium Temperature", "planetary",
    equilibriumTemperatureEvaluate⟩

/-- The `SurfaceGravityFactor` plugin. -/
noncomputable def surfaceGravityFactor : Factor :=
  ⟨"surface_gravity", "Surface Gravity", "planetary", surfaceGravityEvaluate⟩

/-- The `OrbitalEccentricityFactor` plugin. -/
noncomputable def orbitalEccentricityFactor : Factor :=
  ⟨"orbital_eccentricity", "Orbital Eccentricity", "orbital", orbitalEccentricityEvaluate⟩

/-- The `TidalLockingFactor` plugin. -/
noncomputable def tidalLockingFactor : Factor :=
  ⟨"tidal_locking", "Tidal Locking Potential", "orbital", tidalLockingEvaluate⟩

/-- The `AtmosphereRetentionFactor` plugin. -/
noncomputable def atmosphereRetentionFactor : Factor :=
  ⟨"atmosphere_retention", "Atmosphere Retention Potential", "derived",
    atmosphereRetentionEvaluate⟩

/-- The `MagneticFieldPotentialFactor` plugin. -/
noncomputable def magneticFieldPotentialFactor : Factor :=
  ⟨"magnetic_field", "Magnetic Field Potential", "derived",
    magneticFieldPotentialEvaluate⟩

/-- The default factor registry in registration order (`get_all_factors`,
registered one by one by `create_default_engine`; the engine's dictionary
preserves this insertion order). -/
noncomputable def defaultFactors : List Factor :=
  [stellarTypeFactor, stellarLuminosityFactor, stellarAgeFactor,
   habitableZonePositionFactor, planetRadiusFactor, planetMassFactor,
   planetDensityFactor, equilibriumTemperatureFactor, surfaceGravityFactor,
   orbitalEccentricityFactor, tidalLockingFactor, atmosphereRetentionFactor,
   magneticFieldPotentialFactor]

/-- The built-in `DEFAULT_WEIGHTS` table of `ScoringConfig`. -/
def defaultWeights : List (String × ℚ) :=
  [("stellar_type", 12/100),
   ("stellar_luminosity", 8/100),
   ("stellar_age", 5/100),
   ("habitable_zone_position", 5/100),
   ("planet_radius", 12/100),
   ("planet_mass", 8/100),
   ("planet_density", 5/100),
   ("equilibrium_temperature", 10/100),
   ("surface_gravity", 5/100),
   ("orbital_eccentricity", 8/100),
   ("tidal_locking", 7/100),
   ("atmosphere_retention", 8/100),
   ("magnetic_field_potential", 7/100)]

/-- The default configuration produced by `ScoringConfig()` (its
`__post_init__` fills `factor_weights` from `DEFAULT_WEIGHTS`, every entry
enabled); `load_default_config` returns it when no config file exists. -/
def defaultConfig : ScoringConfig :=
  { factor_weights := defaultWeights.map
      (fun p => (p.1, { factor_id := p.1, weight := p.2, enabled := true }))
    normalization_method := "weighted_average"
    minimum_factors := 3 }

/-! ## Scoring engine (`engine.py`) -/

/-- Per-factor contribution in the final report (`FactorScore` in
`habitability.py`), with the display-only fields omitted. -/
structure FactorScore where
  factor_id : String
  factor_name : String
  category : String
  raw_score : ℝ
  weight : ℚ
  weighted_score : ℝ
  explanation : String
  confidence : ConfidenceLevel

/-- The complete assessment (`HabitabilityAssessment`), with the identity
and timestamp metadata omitted. -/
structure HabitabilityAssessment where
  total_score : ℝ
  factor_scores : List FactorScore
  data_completeness : ℚ
  missing_parameters : List String

/-- The `FactorScore` the engine builds from a successful factor
evaluation: weight from the normalized table (0.1 fallback for an
unconfigured id) and `weighted_score = score × weight`. -/
noncomputable def mkOkScore (f : Factor) (r : FactorResult) (w : ℚ) : FactorScore :=
  { factor_id := f.factor_id
    factor_name := f.factor_name
    category := f.category
    raw_score := r.score
    weight := w
    weighted_score := r.score * (w : ℝ)
    explanation := r.explanation
    confidence := r.confidence }

/-- The degraded `FactorScore` the engine builds when a factor raises:
raw score 0.5, very-low confidence, the exception text in the explanation,
and a hard-coded `weighted_score` of 0.05. -/
noncomputable def mkErrorScore (f : Factor) (e : String) (w : ℚ) : FactorScore :=
  { factor_id := f.factor_id
    factor_name := f.factor_name
    category := f.category
    raw_score := 1/2
    weight := w
    weighted_score := 1/20
    explanation := "Error during evaluation: " ++ e
    confidence := .veryLow }

/-- Accumulated state of the evaluation loop in `ScoringEngine.evaluate`:
the factor scores in order, the applicable / attempted counters and the
collected missing-parameter names. -/
structure EvalAcc where
  scores : List FactorScore
  applicable : ℕ
  total : ℕ
  missing : List String

/-- The factor-evaluation loop of `ScoringEngine.evaluate`: disabled
factors are skipped; a raising factor is degraded in place and the loop
continues. -/
noncomputable def evalFactors (cfg : ScoringConfig) (nrm : List (String × ℚ))
    (ex : ExoplanetEntity) (st : StarEntity) : List Factor → EvalAcc
  | [] => ⟨[], 0, 0, []⟩
  | f :: fs =>
      if cfg.is_factor_enabled f.factor_id then
        let rest := evalFactors cfg nrm ex st fs
        match f.evaluate ex st with
        | .ok r =>
            { scores := mkOkScore f r ((nrm.lookup f.factor_id).getD (1/10)) :: rest.scores
              applicable := (if r.is_applicable then 1 else 0) + rest.applicable
              total := rest.total + 1
              missing :=
                (match r.is_applicable, r.missing_data with
                 | false, some md => [md]
                 | _, _ => []) ++ rest.missing }
        | .error e =>
            { scores := mkErrorScore f e ((nrm.lookup f.factor_id).getD (1/10)) :: rest.scores
              applicable := rest.applicable
              total := rest.total + 1
              missing := rest.missing }
      else evalFactors cfg nrm ex st fs

/-- Python's `min` over the raw scores of a non-empty list (the `minimum`
aggregation); 0 for the empty list, which the caller excludes. -/
noncomputable def minRawScore (scores : List FactorScore) : ℝ :=
  match scores.map (fun f => f.raw_score) with
  | [] => 0
  | x :: xs => xs.foldl min x

/-- The weighted-average aggregation body, written out twice in
`_calculate_total_score` (once for the `"weighted_average"` method and once
as the unrecognized-method fallback): `Σ weighted_score / Σ weight`, and 0
when the total weight is 0. -/
noncomputable def weightedAverageScore (scores : List FactorScore) : ℝ :=
  if (scores.map (fun f => f.weight)).sum = 0 then 0
  else (scores.map (fun f => f.weighted_score)).sum /
    (((scores.map (fun f => f.weight)).sum : ℚ) : ℝ)

/-- Total-score aggregation (`ScoringEngine._calculate_total_score`):
weighted average by default and for unrecognized methods, geometric mean
with each factor floored at 0.01, or the minimum raw score. -/
noncomputable def calcTotalScore (cfg : ScoringConfig) (scores : List FactorScore) : ℝ :=
  if scores.isEmpty then 0
  else if cfg.normalization_method = "weighted_average" then
    weightedAverageScore scores
  else if cfg.normalization_method = "geometric_mean" then
    ((scores.map (fun f => max f.raw_score (1/100))).prod) ^ ((1 : ℝ) / (scores.length : ℝ))
  else if cfg.normalization_method = "minimum" then
    minRawScore scores
  else
    weightedAverageScore scores

/-- The engine's single operation (`ScoringEngine.evaluate`): evaluate all
enabled registered factors, aggregate the total score, and report data
completeness (`applicable / attempted`, 0 when nothing was attempted) with
the missing-parameter names. -/
noncomputable def evaluate (cfg : ScoringConfig) (factors : List Factor)
    (ex : ExoplanetEntity) (st : StarEntity) : HabitabilityAssessment :=
  let acc := evalFactors cfg cfg.normalize_weights ex st factors
  { total_score := calcTotalScore cfg acc.scores
    factor_scores := acc.scores
    data_completeness := if 0 < acc.total then (acc.applicable : ℚ) / (acc.total : ℚ) else 0
    missing_parameters := acc.missing }

/-! ## Concrete inputs used by the theorems -/

/-- An exoplanet with every optional field absent. -/
def emptyExoplanet : ExoplanetEntity :=
  { id := none
    name := ""
    host_star_name := ""
    orbital := { period_days := none, semi_major_axis_au := none,
                 eccentricity := none, inclination_deg := none }
    physical := { radius_earth := none, radius_jupiter := none, mass_earth := none,
                  mass_jupiter := none, density_g_cm3 := none,
                  equilibrium_temp_k := none } }

/-- A star with every optional field absent. -/
def emptyStar : StarEntity :=
  { name := ""
    spectral_type := none
    mass_solar := none
    radius_solar := none
    temperature_k := none
    luminosity_solar := none
    luminosity_log := none
    metallicity := none
    age_gyr := none }

/-- An exoplanet equal to the empty one except for a given eccentricity. -/
def planetWithEccentricity (e : ℚ) : ExoplanetEntity :=
  { emptyExoplanet with
    orbital := { period_days := none, semi_major_axis_au := none,
                 eccentricity := some e, inclination_deg := none } }

/-- An exoplanet equal to the empty one except for a given radius. -/
def planetWithRadius (r : ℚ) : ExoplanetEntity :=
  { emptyExoplanet with
    physical := { radius_earth := some r, radius_jupiter := none, mass_earth := none,
                  mass_jupiter := none, density_g_cm3 := none,
                  equilibrium_temp_k := none } }

/-- A factor whose evaluation always raises, for exercising the engine's
partial-failure isolation. -/
def alwaysRaisingFactor (fid msg : String) : Factor :=
  ⟨fid, "Always Raising", "derived", fun _ _ => .error msg⟩

/-- The planet-radius scoring table exactly as the specification tabulates
it (spec §4.2); compared against the source-derived
`planetRadiusEvaluate`. -/
noncomputable def specPlanetRadiusScore (r : ℚ) : ℝ :=
  if r < 1/2 then 3/10
  else if r < 8/10 then 6/10
  else if r < 5/4 then 1
  else if r < 7/4 then 85/100
  else if r < 5/2 then 4/10
  else if r < 4 then 15/100
  else 5/100

/-- A configuration with a single enabled factor of weight 1/2 (its
normalized weight is therefore 1). -/
def cfgHalf : ScoringConfig :=
  { factor_weights := [("f", { factor_id := "f", weight := 1/2, enabled := true })]
    normalization_method := "weighted_average"
    minimum_factors := 3 }

/-- A configuration giving factor `"f"` the normalized weight 1/100 (a
second enabled entry `"g"` holds the remaining 99/100). -/
def cfgGap : ScoringConfig :=
  { factor_weights :=
      [("f", { factor_id := "f", weight := 1/100, enabled := true }),
       ("g", { factor_id := "g", weight := 99/100, enabled := true })]
    normalization_method := "weighted_average"
    minimum_factors := 3 }

/-- The default configuration with the aggregation method switched to the
geometric mean. -/
def cfgGeometric : ScoringConfig :=
  { defaultConfig with normalization_method := "geometric_mean" }

/-- A hot star (teff = 9780 K, i.e. t_star = 4000) of solar luminosity. -/
def starHot : StarEntity :=
  { emptyStar with temperature_k := some 9780, luminosity_solar := some 1 }

/-- A star whose recorded luminosity is exactly zero. -/
def starZeroLum : StarEntity :=
  { emptyStar with luminosity_solar := some 0 }

/-- A solar-luminosity star at exactly the polynomial reference temperature
5780 K (so the flux polynomials are evaluated at 0). -/
def starSolar : StarEntity :=
  { emptyStar with temperature_k := some 5780, luminosity_solar := some 1 }

/-- Physical parameters with a zero radius and a known mass (and no measured
density): the input on which `estimate_density` divides by zero. -/
def zeroRadiusParams : PhysicalParameters :=
  { radius_earth := some 0, radius_jupiter := none, mass_earth := some 1,
    mass_jupiter := none, density_g_cm3 := none, equilibrium_temp_k := none }

/-- The normalized weight table of the default configuration, written out
(the total of the default weights is 1, so normalization is the
identity). -/
def defaultNormalizedWeights : List (String × ℚ) :=
  [("stellar_type", 12/100),
   ("stellar_luminosity", 8/100),
   ("stellar_age", 5/100),
   ("habitable_zone_position", 5/100),
   ("planet_radius", 12/100),
   ("planet_mass", 8/100),
   ("planet_density", 5/100),
   ("equilibrium_temperature", 10/100),
   ("surface_gravity", 5/100),
   ("orbital_eccentricity", 8/100),
   ("tidal_locking", 7/100),
   ("atmosphere_retention", 8/100),
   ("magnetic_field_potential", 7/100)]

/-! ## General lemmas -/

/-- The score clamp is the identity on scores already in [0, 1]. -/
lemma clampScore_of (s : ℝ) (h0 : 0 ≤ s) (h1 : s ≤ 1) : clampScore s = s := by
  unfold clampScore
  rw [min_eq_right h1, max_eq_right h0]

/-- The clamp at the neutral score. -/
lemma clampScore_half : clampScore (1/2) = 1/2 :=
  clampScore_of _ (by norm_num) (by norm_num)

/-! ## C6 — totality of the derived-property calculations -/

/-- C6: the claim says every derived-property calculation returns
`None`/absent rather than raising, with `radius ≤ 0` guarded.  The guards do
exist in `surface_gravity_earth` and `escape_velocity_km_s`, but
`estimate_density` has none: at `radius_earth = 0` with a known mass and no
measured density it reaches Python's float division by zero and raises,
contradicting the claim (and the guarded pattern of its sibling methods). -/
theorem C6_estimate_density_zero_radius_raises :
    zeroRadiusParams.estimate_density = .error "float division by zero" ∧
    zeroRadiusParams.surface_gravity_earth = none ∧
    zeroRadiusParams.classify_planet_type = PlanetType.terrestrial := by
  refine ⟨rfl, rfl, rfl⟩

/-! ## C4 — eccentricity round numbers -/

/-- C4: the claim's three checkpoints for `OrbitalEccentricityFactor`.
Eccentricity 0.0 scores 1.0 and eccentricity 0.99 scores 0.02 ≤ 0.05 as
claimed, but eccentricity 0.206 falls in the `0.2 ≤ e < 0.3` band and
scores 0.5, not the claimed moderate ~0.7 (the source's 0.7 band covers
`0.1 ≤ e < 0.2` yet its own explanation text cites Mercury's e = 0.206 as
that band's exemplar). -/
theorem C4_eccentricity_round_numbers :
    (orbitalEccentricityFactor.evaluate (planetWithEccentricity 0) emptyStar).map
        (fun r => r.score) = .ok 1 ∧
    (orbitalEccentricityFactor.evaluate (planetWithEccentricity (206/1000)) emptyStar).map
        (fun r => r.score) = .ok (1/2) ∧
    ((1 : ℝ)/2 ≠ 7/10) ∧
    (orbitalEccentricityFactor.evaluate (planetWithEccentricity (99/100)) emptyStar).map
        (fun r => r.score) = .ok (1/50) ∧
    ((1 : ℝ)/50 ≤ 1/20) := by
  refine ⟨?_, ?_, by norm_num, ?_, by norm_num⟩ <;>
    · simp only [orbitalEccentricityFactor, orbitalEccentricityEvaluate,
        planetWithEccentricity, emptyExoplanet, okResult, Except.map]
      norm_num
      rw [clampScore_of] <;> norm_num

/-! ## C7 — planet radius scoring table -/

/-- C7: for every present radius value, `PlanetRadiusFactor` returns exactly
the score tabulated in the specification. -/
theorem C7_planet_radius_table (r : ℚ) :
    (planetRadiusFactor.evaluate (planetWithRadius r) emptyStar).map
      (fun res => res.score) = .ok (specPlanetRadiusScore r) := by
  simp only [planetRadiusFactor, planetRadiusEvaluate, planetWithRadius,
    emptyExoplanet, okResult, Except.map, specPlanetRadiusScore]
  split_ifs <;>
    · rw [clampScore_of] <;> push_cast <;> norm_num

/-! ## C8 — weight normalization -/

/-- The sum of the values of a normalized weight list is the sum of the
weights divided by the normalizing constant. -/
lemma sum_snd_normalized (l : List (String × FactorWeightConfig)) (T : ℚ) :
    ((l.map (fun p => (p.1, p.2.weight / T))).map (fun q => q.2)).sum =
      (l.map (fun p => p.2.weight)).sum / T := by
  induction l with
  | nil => simp
  | cons x xs ih => simp only [List.map_cons, List.sum_cons, ih, add_div]

/-- The default configuration satisfies the construction-time invariants. -/
lemma validConfig_default : ValidConfig defaultConfig := by
  constructor
  · intro p hp
    simp only [defaultConfig, defaultWeights, List.map_cons, List.map_nil,
      List.mem_cons, List.not_mem_nil, or_false] at hp
    rcases hp with h|h|h|h|h|h|h|h|h|h|h|h|h <;> subst h <;> constructor <;> norm_num
  · decide

/-- C8: whenever some factor is enabled with a positive weight, the
normalized weights sum to exactly 1 (the model's rationals are exact, so
the floating tolerance is not needed); when every enabled factor has
weight 0 — in particular when all are disabled — `normalize_weights`
returns the empty mapping and no division happens. -/
theorem C8_weight_normalization (cfg : ScoringConfig) (hv : ValidConfig cfg) :
    ((∃ p ∈ cfg.factor_weights, p.2.enabled = true ∧ 0 < p.2.weight) →
      (cfg.normalize_weights.map (fun q => q.2)).sum = 1) ∧
    ((∀ p ∈ cfg.factor_weights, p.2.enabled = true → p.2.weight = 0) →
      cfg.normalize_weights = []) := by
  constructor
  · rintro ⟨p, hp, hen, hw⟩
    have hmemf : p ∈ cfg.factor_weights.filter (fun q => q.2.enabled) :=
      List.mem_filter.mpr ⟨hp, hen⟩
    have hnn : ∀ x ∈ (cfg.factor_weights.filter (fun q => q.2.enabled)).map
        (fun q => q.2.weight), 0 ≤ x := by
      intro x hx
      rcases List.mem_map.mp hx with ⟨q, hq, rfl⟩
      exact (hv.1 q (List.mem_filter.mp hq).1).1
    have htot : 0 < cfg.get_total_weight := by
      have hle : p.2.weight ≤ cfg.get_total_weight :=
        List.single_le_sum hnn _ (List.mem_map.mpr ⟨p, hmemf, rfl⟩)
      exact lt_of_lt_of_le hw hle
    have hne : cfg.get_total_weight ≠ 0 := ne_of_gt htot
    unfold ScoringConfig.normalize_weights
    rw [if_neg hne, sum_snd_normalized]
    exact div_self hne
  · intro hall
    have htot : cfg.get_total_weight = 0 := by
      unfold ScoringConfig.get_total_weight
      apply List.sum_eq_zero
      intro x hx
      rcases List.mem_map.mp hx with ⟨q, hq, rfl⟩
      rcases List.mem_filter.mp hq with ⟨hq1, hq2⟩
      exact hall q hq1 hq2
    unfold ScoringConfig.normalize_weights
    rw [if_pos htot]

/-- Witness for C8 at the default configuration. -/
theorem C8_weight_normalization_witness :
    (defaultConfig.normalize_weights.map (fun q => q.2)).sum = 1 :=
  (C8_weight_normalization defaultConfig validConfig_default).1
    ⟨("stellar_type", { factor_id := "stellar_type", weight := 12/100, enabled := true }),
      by simp [defaultConfig, defaultWeights], rfl, by norm_num⟩

/-! ## C1 — partial failure isolation -/

/-- The evaluation loop produces exactly one factor score per enabled
registered factor, in registration order. -/
lemma evalFactors_ids (cfg : ScoringConfig) (nrm : List (String × ℚ))
    (ex : ExoplanetEntity) (st : StarEntity) (factors : List Factor) :
    (evalFactors cfg nrm ex st factors).scores.map (fun e => e.factor_id) =
      (factors.filter (fun g => cfg.is_factor_enabled g.factor_id)).map
        (fun g => g.factor_id) := by
  induction factors with
  | nil => simp [evalFactors]
  | cons f fs ih =>
      by_cases h : cfg.is_factor_enabled f.factor_id
      · cases hev : f.evaluate ex st with
        | ok r => simp [evalFactors, h, hev, mkOkScore, List.filter_cons, ih]
        | error e => simp [evalFactors, h, hev, mkErrorScore, List.filter_cons, ih]
      · simp [evalFactors, h, List.filter_cons, ih]

/-- An enabled registered factor that raises contributes exactly the
degraded score entry to the evaluation loop's output. -/
lemma evalFactors_error_mem (cfg : ScoringConfig) (nrm : List (String × ℚ))
    (ex : ExoplanetEntity) (st : StarEntity) (f : Factor) (msg : String)
    (hen : cfg.is_factor_enabled f.factor_id = true)
    (herr : f.evaluate ex st = .error msg) (factors : List Factor)
    (hmem : f ∈ factors) :
    mkErrorScore f msg ((nrm.lookup f.factor_id).getD (1/10)) ∈
      (evalFactors cfg nrm ex st factors).scores := by
  induction factors with
  | nil => cases hmem
  | cons g gs ih =>
      rcases List.mem_cons.mp hmem with hfg | hmem'
      · subst hfg
        simp only [evalFactors, hen, if_true, herr]
        exact List.mem_cons_self _ _
      · by_cases h : cfg.is_factor_enabled g.factor_id
        · cases hev : g.evaluate ex st with
          | ok r =>
              simp only [evalFactors, h, if_true, hev]
              exact List.mem_cons_of_mem _ (ih hmem')
          | error e =>
              simp only [evalFactors, h, if_true, hev]
              exact List.mem_cons_of_mem _ (ih hmem')
        · simp only [evalFactors, h]
          simp only [if_false, Bool.false_eq_true, reduceIte]
          exact ih hmem'

/-- C1: when a registered enabled factor raises during evaluation, the
engine still reports one factor score per enabled registered factor (in
registration order), and the faulty factor's entry carries raw score 0.5,
very-low confidence, the exception text embedded in its explanation, and
the weight looked up from the configuration's normalized table (0.1
fallback). -/
theorem C1_partial_failure_isolation (cfg : ScoringConfig) (factors : List Factor)
    (ex : ExoplanetEntity) (st : StarEntity) (f : Factor) (msg : String)
    (hmem : f ∈ factors)
    (hen : cfg.is_factor_enabled f.factor_id = true)
    (herr : f.evaluate ex st = .error msg) :
    ((evaluate cfg factors ex st).factor_scores.map (fun e => e.factor_id) =
      (factors.filter (fun g => cfg.is_factor_enabled g.factor_id)).map
        (fun g => g.factor_id)) ∧
    ∃ e ∈ (evaluate cfg factors ex st).factor_scores,
      e.factor_id = f.factor_id ∧ e.raw_score = 1/2 ∧
      e.confidence = ConfidenceLevel.veryLow ∧
      e.explanation = "Error during evaluation: " ++ msg ∧
      e.weight = (cfg.normalize_weights.lookup f.factor_id).getD (1/10) := by
  constructor
  · simpa [evaluate] using evalFactors_ids cfg cfg.normalize_weights ex st factors
  · refine ⟨mkErrorScore f msg ((cfg.normalize_weights.lookup f.factor_id).getD (1/10)),
      ?_, rfl, rfl, rfl, rfl, rfl⟩
    simpa [evaluate] using
      evalFactors_error_mem cfg cfg.normalize_weights ex st f msg hen herr factors hmem

/-- Witness for C1: the engine run on a single always-raising factor under
the default configuration. -/
theorem C1_partial_failure_isolation_witness :
    ((evaluate defaultConfig [alwaysRaisingFactor "boom_factor" "boom"]
        emptyExoplanet emptyStar).factor_scores.map (fun e => e.factor_id) =
      (([alwaysRaisingFactor "boom_factor" "boom"].filter
          (fun g => defaultConfig.is_factor_enabled g.factor_id)).map
        (fun g => g.factor_id))) ∧
    ∃ e ∈ (evaluate defaultConfig [alwaysRaisingFactor "boom_factor" "boom"]
        emptyExoplanet emptyStar).factor_scores,
      e.factor_id = (alwaysRaisingFactor "boom_factor" "boom").factor_id ∧
      e.raw_score = 1/2 ∧ e.confidence = ConfidenceLevel.veryLow ∧
      e.explanation = "Error during evaluation: " ++ "boom" ∧
      e.weight = (defaultConfig.normalize_weights.lookup
        (alwaysRaisingFactor "boom_factor" "boom").factor_id).getD (1/10) :=
  C1_partial_failure_isolation defaultConfig _ emptyExoplanet emptyStar _ "boom"
    (List.mem_singleton.mpr rfl) (by decide) rfl

/-! ## C3 — the weighted-score invariant -/

/-- Every factor score the evaluation loop emits either satisfies
`weighted_score = raw_score × weight` (successful evaluations, by
construction) or is a degraded entry whose `weighted_score` is the
hard-coded constant 0.05. -/
lemma evalFactors_weighted_disj (cfg : ScoringConfig) (nrm : List (String × ℚ))
    (ex : ExoplanetEntity) (st : StarEntity) (factors : List Factor) :
    ∀ e ∈ (evalFactors cfg nrm ex st factors).scores,
      e.weighted_score = e.raw_score * ((e.weight : ℚ) : ℝ) ∨
      (e.raw_score = 1/2 ∧ e.weighted_score = 1/20 ∧
        e.confidence = ConfidenceLevel.veryLow) := by
  induction factors with
  | nil => intro e he; simp [evalFactors] at he
  | cons f fs ih =>
      intro e he
      by_cases h : cfg.is_factor_enabled f.factor_id
      · cases hev : f.evaluate ex st with
        | ok r =>
            simp only [evalFactors, h, if_true, hev] at he
            rcases List.mem_cons.mp he with rfl | he'
            · exact Or.inl rfl
            · exact ih e he'
        | error er =>
            simp only [evalFactors, h, if_true, hev] at he
            rcases List.mem_cons.mp he with rfl | he'
            · exact Or.inr ⟨rfl, rfl, rfl⟩
            · exact ih e he'
      · simp only [evalFactors, h, Bool.false_eq_true, if_false] at he
        exact ih e he

/-- The normalized weights of the single-factor half-weight config. -/
lemma cfgHalf_nrm : cfgHalf.normalize_weights = [("f", 1)] := by
  norm_num [ScoringConfig.normalize_weights, ScoringConfig.get_total_weight, cfgHalf]

/-- The normalized weights of the 1/100-99/100 config. -/
lemma cfgGap_nrm : cfgGap.normalize_weights = [("f", 1/100), ("g", 99/100)] := by
  norm_num [ScoringConfig.normalize_weights, ScoringConfig.get_total_weight, cfgGap]

/-- Counterexample for C3: a raising factor whose configured normalized
weight is 1 gets `weighted_score = 0.05`, which is not
`raw_score × weight = 0.5 × 1`. -/
theorem C3_weighted_score_counterexample :
    (evaluate cfgHalf [alwaysRaisingFactor "f" "boom"] emptyExoplanet
        emptyStar).factor_scores.map (fun e => (e.raw_score, e.weight, e.weighted_score)) =
      [((1 : ℝ)/2, (1 : ℚ), (1 : ℝ)/20)] ∧
    ¬((1 : ℝ)/20 = (1 : ℝ)/2 * ((1 : ℚ) : ℝ)) := by
  constructor
  · simp only [evaluate, cfgHalf_nrm]
    simp [evalFactors, ScoringConfig.is_factor_enabled, cfgHalf,
      alwaysRaisingFactor, mkErrorScore, List.lookup]
  · push_cast
    norm_num

/-- C3 amended: the weighted-score invariant holds for every factor score
produced by a successful evaluation; entries degraded by an exception
instead carry the hard-coded `weighted_score = 0.05` (equal to
`raw_score × weight` only when the weight happens to be the 0.1 fallback). -/
theorem C3_weighted_score_amended (cfg : ScoringConfig) (factors : List Factor)
    (ex : ExoplanetEntity) (st : StarEntity) :
    ∀ e ∈ (evaluate cfg factors ex st).factor_scores,
      e.weighted_score = e.raw_score * ((e.weight : ℚ) : ℝ) ∨
      (e.raw_score = 1/2 ∧ e.weighted_score = 1/20 ∧
        e.confidence = ConfidenceLevel.veryLow) := by
  intro e he
  exact evalFactors_weighted_disj cfg cfg.normalize_weights ex st factors e
    (by simpa [evaluate] using he)

/-- Witness for the amended C3 at the degraded entry of the single-factor
run. -/
theorem C3_weighted_score_amended_witness :
    (mkErrorScore (alwaysRaisingFactor "f" "boom") "boom" 1).weighted_score =
      (mkErrorScore (alwaysRaisingFactor "f" "boom") "boom" 1).raw_score *
        (((mkErrorScore (alwaysRaisingFactor "f" "boom") "boom" 1).weight : ℚ) : ℝ) ∨
    ((mkErrorScore (alwaysRaisingFactor "f" "boom") "boom" 1).raw_score = 1/2 ∧
      (mkErrorScore (alwaysRaisingFactor "f" "boom") "boom" 1).weighted_score = 1/20 ∧
      (mkErrorScore (alwaysRaisingFactor "f" "boom") "boom" 1).confidence =
        ConfidenceLevel.veryLow) :=
  C3_weighted_score_amended cfgHalf [alwaysRaisingFactor "f" "boom"]
    emptyExoplanet emptyStar _ (by
      simp only [evaluate, cfgHalf_nrm]
      simp [evalFactors, ScoringConfig.is_factor_enabled, cfgHalf,
        alwaysRaisingFactor, List.lookup])

/-! ## C10 — total-score bounds -/

/-- Counterexample for C10: under `weighted_average`, a raising factor
whose normalized weight is 1/100 contributes the hard-coded weighted score
0.05 against a total weight of 1/100, making the total score 5. -/
theorem C10_total_score_counterexample :
    (evaluate cfgGap [alwaysRaisingFactor "f" "boom"] emptyExoplanet
        emptyStar).total_score = 5 ∧
    ¬((evaluate cfgGap [alwaysRaisingFactor "f" "boom"] emptyExoplanet
        emptyStar).total_score ≤ 1) := by
  have h : (evaluate cfgGap [alwaysRaisingFactor "f" "boom"] emptyExoplanet
      emptyStar).total_score = 5 := by
    simp only [evaluate, cfgGap_nrm]
    simp [evalFactors, ScoringConfig.is_factor_enabled, cfgGap,
      alwaysRaisingFactor, List.lookup, calcTotalScore, weightedAverageScore,
      mkErrorScore]
    norm_num
  exact ⟨h, by rw [h]; norm_num⟩

/-- A successful association-list lookup returns a stored pair. -/
lemma mem_of_lookup_eq_some {l : List (String × ℚ)} {k : String} {v : ℚ}
    (h : l.lookup k = some v) : (k, v) ∈ l := by
  induction l with
  | nil => simp [List.lookup] at h
  | cons p ps ih =>
      obtain ⟨a, b⟩ := p
      cases hk : (k == a) with
      | true =>
          rw [List.lookup, hk] at h
          obtain rfl : b = v := by injection h
          obtain rfl : k = a := eq_of_beq hk
          exact List.mem_cons_self _ _
      | false =>
          rw [List.lookup, hk] at h
          exact List.mem_cons_of_mem _ (ih h)

/-- Under a valid configuration every normalized weight is non-negative. -/
lemma normalize_weights_nonneg (cfg : ScoringConfig) (hv : ValidConfig cfg) :
    ∀ q ∈ cfg.normalize_weights, 0 ≤ q.2 := by
  intro q hq
  unfold ScoringConfig.normalize_weights at hq
  by_cases h0 : cfg.get_total_weight = 0
  · rw [if_pos h0] at hq; cases hq
  · rw [if_neg h0] at hq
    rcases List.mem_map.mp hq with ⟨p, hp, rfl⟩
    have hw : 0 ≤ p.2.weight := (hv.1 p (List.mem_filter.mp hp).1).1
    have htot : 0 ≤ cfg.get_total_weight := by
      apply List.sum_nonneg
      intro x hx
      rcases List.mem_map.mp hx with ⟨q', hq', rfl⟩
      exact (hv.1 q' (List.mem_filter.mp hq').1).1
    exact div_nonneg hw htot

/-- Under a valid configuration the weight the engine assigns (normalized
value or the 0.1 fallback) is non-negative. -/
lemma engineWeight_nonneg (cfg : ScoringConfig) (hv : ValidConfig cfg) (fid : String) :
    0 ≤ (cfg.normalize_weights.lookup fid).getD (1/10) := by
  cases h : cfg.normalize_weights.lookup fid with
  | none => norm_num
  | some v =>
      simpa using normalize_weights_nonneg cfg hv _ (mem_of_lookup_eq_some h)

/-- Raw-score and weight bounds for every entry the evaluation loop emits,
assuming factor results carry the `FactorResult.__post_init__` clamp. -/
lemma evalFactors_bounds (cfg : ScoringConfig) (hv : ValidConfig cfg)
    (ex : ExoplanetEntity) (st : StarEntity) (factors : List Factor)
    (hclamp : ∀ f ∈ factors, ∀ r, f.evaluate ex st = .ok r →
      0 ≤ r.score ∧ r.score ≤ 1) :
    ∀ e ∈ (evalFactors cfg cfg.normalize_weights ex st factors).scores,
      0 ≤ e.raw_score ∧ e.raw_score ≤ 1 ∧ 0 ≤ e.weight := by
  induction factors with
  | nil => intro e he; simp [evalFactors] at he
  | cons f fs ih =>
      intro e he
      have hclamp' : ∀ g ∈ fs, ∀ r, g.evaluate ex st = .ok r →
          0 ≤ r.score ∧ r.score ≤ 1 :=
        fun g hg => hclamp g (List.mem_cons_of_mem _ hg)
      by_cases h : cfg.is_factor_enabled f.factor_id
      · cases hev : f.evaluate ex st with
        | ok r =>
            simp only [evalFactors, h, if_true, hev] at he
            rcases List.mem_cons.mp he with rfl | he'
            · obtain ⟨h0, h1⟩ := hclamp f (List.mem_cons_self _ _) r hev
              exact ⟨h0, h1, engineWeight_nonneg cfg hv _⟩
            · exact ih hclamp' e he'
        | error er =>
            simp only [evalFactors, h, if_true, hev] at he
            rcases List.mem_cons.mp he with rfl | he'
            · exact ⟨by norm_num [mkErrorScore], by norm_num [mkErrorScore],
                engineWeight_nonneg cfg hv _⟩
            · exact ih hclamp' e he'
      · simp only [evalFactors, h, Bool.false_eq_true, if_false] at he
        exact ih hclamp' e he

/-- When no enabled factor raises, every emitted entry comes from the
successful branch and satisfies the weighted-score equation. -/
lemma evalFactors_no_error (cfg : ScoringConfig) (nrm : List (String × ℚ))
    (ex : ExoplanetEntity) (st : StarEntity) (factors : List Factor)
    (hok : ∀ f ∈ factors, cfg.is_factor_enabled f.factor_id = true →
      ∃ r, f.evaluate ex st = .ok r) :
    ∀ e ∈ (evalFactors cfg nrm ex st factors).scores,
      e.weighted_score = e.raw_score * ((e.weight : ℚ) : ℝ) := by
  induction factors with
  | nil => intro e he; simp [evalFactors] at he
  | cons f fs ih =>
      intro e he
      have hok' : ∀ g ∈ fs, cfg.is_factor_enabled g.factor_id = true →
          ∃ r, g.evaluate ex st = .ok r :=
        fun g hg => hok g (List.mem_cons_of_mem _ hg)
      by_cases h : cfg.is_factor_enabled f.factor_id
      · obtain ⟨r, hev⟩ := hok f (List.mem_cons_self _ _) h
        simp only [evalFactors, h, if_true, hev] at he
        rcases List.mem_cons.mp he with rfl | he'
        · rfl
        · exact ih hok' e he'
      · simp only [evalFactors, h, Bool.false_eq_true, if_false] at he
        exact ih hok' e he

/-- A rational list sum cast to the reals is the sum of the casts. -/
lemma cast_sum_weights (s : List FactorScore) :
    (((s.map (fun e => e.weight)).sum : ℚ) : ℝ) =
      (s.map (fun e => ((e.weight : ℚ) : ℝ))).sum := by
  induction s with
  | nil => simp
  | cons e es ih => push_cast [List.map_cons, List.sum_cons] at ih ⊢; rw [ih]

/-- The weighted average is non-negative when every weighted score and
weight is. -/
lemma weightedAverageScore_nonneg (s : List FactorScore)
    (h : ∀ e ∈ s, 0 ≤ e.weighted_score ∧ 0 ≤ e.weight) :
    0 ≤ weightedAverageScore s := by
  unfold weightedAverageScore
  by_cases h0 : (s.map (fun f => f.weight)).sum = 0
  · rw [if_pos h0]
  · rw [if_neg h0]
    have hnum : 0 ≤ (s.map (fun f => f.weighted_score)).sum := by
      apply List.sum_nonneg
      intro x hx
      rcases List.mem_map.mp hx with ⟨e, he, rfl⟩
      exact (h e he).1
    have hden : (0 : ℚ) ≤ (s.map (fun f => f.weight)).sum := by
      apply List.sum_nonneg
      intro x hx
      rcases List.mem_map.mp hx with ⟨e, he, rfl⟩
      exact (h e he).2
    have : (0 : ℝ) ≤ (((s.map (fun f => f.weight)).sum : ℚ) : ℝ) := by
      exact_mod_cast hden
    exact div_nonneg hnum this

/-- The weighted average is at most 1 when every weighted score is at most
its (non-negative) weight. -/
lemma weightedAverageScore_le_one (s : List FactorScore)
    (h : ∀ e ∈ s, e.weighted_score ≤ ((e.weight : ℚ) : ℝ) ∧ 0 ≤ e.weight) :
    weightedAverageScore s ≤ 1 := by
  unfold weightedAverageScore
  by_cases h0 : (s.map (fun f => f.weight)).sum = 0
  · rw [if_pos h0]; norm_num
  · rw [if_neg h0]
    have hden : (0 : ℚ) < (s.map (fun f => f.weight)).sum := by
      rcases lt_or_eq_of_le (List.sum_nonneg (by
        intro x hx
        rcases List.mem_map.mp hx with ⟨e, he, rfl⟩
        exact (h e he).2)) with hlt | heq
      · exact hlt
      · exact absurd heq.symm h0
    have hdenR : (0 : ℝ) < (((s.map (fun f => f.weight)).sum : ℚ) : ℝ) := by
      exact_mod_cast hden
    rw [div_le_one hdenR, cast_sum_weights]
    apply List.sum_le_sum
    intro e he
    exact (h e he).1

/-- Bounds for a product of factors that all lie in [1/100, 1]. -/
lemma prod_bounds (l : List ℝ) (h : ∀ x ∈ l, 1/100 ≤ x ∧ x ≤ 1) :
    0 < l.prod ∧ l.prod ≤ 1 := by
  induction l with
  | nil => simp
  | cons x xs ih =>
      have hx := h x (List.mem_cons_self _ _)
      have ih' := ih (fun y hy => h y (List.mem_cons_of_mem _ hy))
      have hx0 : (0 : ℝ) < x := lt_of_lt_of_le (by norm_num) hx.1
      refine ⟨by simpa using mul_pos hx0 ih'.1, ?_⟩
      simpa using mul_le_one₀ hx.2 (le_of_lt ih'.1) ih'.2

/-- Bounds for Python's running `min` over scores in [0, 1]. -/
lemma foldl_min_bounds (xs : List ℝ) :
    ∀ x, 0 ≤ x → x ≤ 1 → (∀ y ∈ xs, 0 ≤ y ∧ y ≤ 1) →
      0 ≤ xs.foldl min x ∧ xs.foldl min x ≤ 1 := by
  induction xs with
  | nil => intro x h0 h1 _; exact ⟨h0, h1⟩
  | cons y ys ih =>
      intro x h0 h1 hall
      have hy := hall y (List.mem_cons_self _ _)
      have hall' : ∀ z ∈ ys, 0 ≤ z ∧ z ≤ 1 :=
        fun z hz => hall z (List.mem_cons_of_mem _ hz)
      simp only [List.foldl_cons]
      exact ih (min x y) (le_min h0 hy.1) (le_trans (min_le_left _ _) h1) hall'

/-- C10 amended: assuming the configuration invariants and the
`FactorResult` clamp, the total score is always non-negative; it is at most
1 under `geometric_mean` and `minimum` even in the presence of raising
factors, and under `weighted_average` (and the identical unrecognized-method
fallback) whenever no enabled factor raises.  (With a raising factor,
`weighted_average` can exceed 1 — see the counterexample.) -/
theorem C10_total_score_amended (cfg : ScoringConfig) (factors : List Factor)
    (ex : ExoplanetEntity) (st : StarEntity) (hv : ValidConfig cfg)
    (hclamp : ∀ f ∈ factors, ∀ r, f.evaluate ex st = .ok r →
      0 ≤ r.score ∧ r.score ≤ 1) :
    0 ≤ (evaluate cfg factors ex st).total_score ∧
    ((cfg.normalization_method = "geometric_mean" ∨
        cfg.normalization_method = "minimum") →
      (evaluate cfg factors ex st).total_score ≤ 1) ∧
    ((∀ f ∈ factors, cfg.is_factor_enabled f.factor_id = true →
        ∃ r, f.evaluate ex st = .ok r) →
      (evaluate cfg factors ex st).total_score ≤ 1) := by
  have hts : (evaluate cfg factors ex st).total_score =
      calcTotalScore cfg (evalFactors cfg cfg.normalize_weights ex st factors).scores := by
    simp [evaluate]
  set s := (evalFactors cfg cfg.normalize_weights ex st factors).scores with hs
  have hb : ∀ e ∈ s, 0 ≤ e.raw_score ∧ e.raw_score ≤ 1 ∧ 0 ≤ e.weight :=
    evalFactors_bounds cfg hv ex st factors hclamp
  have hdisj : ∀ e ∈ s, e.weighted_score = e.raw_score * ((e.weight : ℚ) : ℝ) ∨
      (e.raw_score = 1/2 ∧ e.weighted_score = 1/20 ∧
        e.confidence = ConfidenceLevel.veryLow) :=
    evalFactors_weighted_disj cfg cfg.normalize_weights ex st factors
  have hwge : ∀ e ∈ s, 0 ≤ e.weighted_score := by
    intro e he
    rcases hdisj e he with heq | ⟨_, heq, _⟩
    · rw [heq]
      exact mul_nonneg (hb e he).1 (by exact_mod_cast (hb e he).2.2)
    · rw [heq]; norm_num
  have hgeom : ∀ x ∈ s.map (fun f => max f.raw_score (1/100)), 1/100 ≤ x ∧ x ≤ 1 := by
    intro x hx
    rcases List.mem_map.mp hx with ⟨e, he, rfl⟩
    exact ⟨le_max_right _ _, max_le (hb e he).2.1 (by norm_num)⟩
  have hminb : 0 ≤ minRawScore s ∧ minRawScore s ≤ 1 := by
    unfold minRawScore
    cases hm : s.map (fun f => f.raw_score) with
    | nil => norm_num
    | cons x xs =>
        have hall : ∀ y ∈ x :: xs, 0 ≤ y ∧ y ≤ 1 := by
          rw [← hm]
          intro y hy
          rcases List.mem_map.mp hy with ⟨e, he, rfl⟩
          exact ⟨(hb e he).1, (hb e he).2.1⟩
        have hx := hall x (List.mem_cons_self _ _)
        exact foldl_min_bounds xs x hx.1 hx.2
          (fun z hz => hall z (List.mem_cons_of_mem _ hz))
  refine ⟨?_, ?_, ?_⟩
  · rw [hts]
    unfold calcTotalScore
    split_ifs with h1 h2 h3 h4
    · exact le_refl 0
    · exact weightedAverageScore_nonneg s (fun e he => ⟨hwge e he, (hb e he).2.2⟩)
    · exact Real.rpow_nonneg (le_of_lt (prod_bounds _ hgeom).1) _
    · exact hminb.1
    · exact weightedAverageScore_nonneg s (fun e he => ⟨hwge e he, (hb e he).2.2⟩)
  · intro hmethod
    rw [hts]
    unfold calcTotalScore
    split_ifs with h1 h2 h3 h4
    · norm_num
    · rcases hmethod with hm | hm <;> rw [hm] at h2 <;> exact absurd h2 (by decide)
    · exact Real.rpow_le_one (le_of_lt (prod_bounds _ hgeom).1)
        (prod_bounds _ hgeom).2 (by positivity)
    · exact hminb.2
    · rcases hmethod with hm | hm
      · exact absurd hm h3
      · exact absurd hm h4
  · intro hok
    have hwle : ∀ e ∈ s, e.weighted_score ≤ ((e.weight : ℚ) : ℝ) ∧ 0 ≤ e.weight := by
      intro e he
      have heq := evalFactors_no_error cfg cfg.normalize_weights ex st factors hok e he
      refine ⟨?_, (hb e he).2.2⟩
      rw [heq]
      have hw : (0 : ℝ) ≤ ((e.weight : ℚ) : ℝ) := by exact_mod_cast (hb e he).2.2
      calc e.raw_score * ((e.weight : ℚ) : ℝ)
          ≤ 1 * ((e.weight : ℚ) : ℝ) := mul_le_mul_of_nonneg_right (hb e he).2.1 hw
        _ = ((e.weight : ℚ) : ℝ) := one_mul _
    rw [hts]
    unfold calcTotalScore
    split_ifs with h1 h2 h3 h4
    · norm_num
    · exact weightedAverageScore_le_one s hwle
    · exact Real.rpow_le_one (le_of_lt (prod_bounds _ hgeom).1)
        (prod_bounds _ hgeom).2 (by positivity)
    · exact hminb.2
    · exact weightedAverageScore_le_one s hwle

/-- Witness for the amended C10: a geometric-mean run over a single raising
factor. -/
theorem C10_total_score_amended_witness :
    0 ≤ (evaluate cfgGeometric [alwaysRaisingFactor "f" "boom"] emptyExoplanet
        emptyStar).total_score ∧
    ((cfgGeometric.normalization_method = "geometric_mean" ∨
        cfgGeometric.normalization_method = "minimum") →
      (evaluate cfgGeometric [alwaysRaisingFactor "f" "boom"] emptyExoplanet
        emptyStar).total_score ≤ 1) ∧
    ((∀ f ∈ [alwaysRaisingFactor "f" "boom"],
        cfgGeometric.is_factor_enabled f.factor_id = true →
        ∃ r, f.evaluate emptyExoplanet emptyStar = .ok r) →
      (evaluate cfgGeometric [alwaysRaisingFactor "f" "boom"] emptyExoplanet
        emptyStar).total_score ≤ 1) :=
  C10_total_score_amended cfgGeometric [alwaysRaisingFactor "f" "boom"]
    emptyExoplanet emptyStar
    ⟨validConfig_default.1, validConfig_default.2⟩
    (by
      intro f hf r hr
      rcases List.mem_singleton.mp hf with rfl
      simp [alwaysRaisingFactor] at hr)

/-! ## C5 — habitable-zone boundary ordering -/

/-- The maximum-greenhouse flux is non-positive from `t_star = 4976` on
(all coefficients of the polynomial shifted to `u = t - 4976` are
negative). -/
lemma sMaxGreenhouse_nonpos (t : ℚ) (h : 4976 ≤ t) : sMaxGreenhouse t ≤ 0 := by
  have hu : (0 : ℚ) ≤ t - 4976 := by linarith
  unfold sMaxGreenhouse
  nlinarith [hu, sq_nonneg (t - 4976), pow_nonneg hu 3, pow_nonneg hu 4]

/-- The early-Mars flux is non-positive from `t_star = -6156` down. -/
lemma sEarlyMars_nonpos (t : ℚ) (h : t ≤ -6156) : sEarlyMars t ≤ 0 := by
  have hu : (0 : ℚ) ≤ -6156 - t := by linarith
  unfold sEarlyMars
  nlinarith [hu, sq_nonneg (-6156 - t), pow_nonneg hu 3, pow_nonneg hu 4]

/-- On the temperature range where the flux boundaries can all be positive,
the recent-Venus flux strictly dominates the runaway-greenhouse flux (so the
optimistic inner edge sits inside the conservative inner edge). -/
lemma flux_rv_gt_run (t : ℚ) (h1 : -6156 < t) (h2 : t < 4976) :
    sRunawayGreenhouse t < sRecentVenus t := by
  have hA : (0 : ℚ) < t + 6156 := by linarith
  have hB : (0 : ℚ) < 4976 - t := by linarith
  unfold sRunawayGreenhouse sRecentVenus
  nlinarith [hA, hB, mul_pos (mul_pos hA hB) (mul_pos hA hB),
    mul_nonneg (sq_nonneg t) hB.le, mul_nonneg (sq_nonneg (t + 3531)) hA.le]

/-- On the same range the runaway-greenhouse flux strictly dominates the
maximum-greenhouse flux (conservative inner < conservative outer). -/
lemma flux_run_gt_mgh (t : ℚ) (h1 : -6156 < t) (h2 : t < 4976) :
    sMaxGreenhouse t < sRunawayGreenhouse t := by
  have hA : (0 : ℚ) < t + 6156 := by linarith
  have hB : (0 : ℚ) < 4976 - t := by linarith
  unfold sRunawayGreenhouse sMaxGreenhouse
  nlinarith [hA, hB, mul_pos hA hB, mul_nonneg (mul_nonneg hA.le hA.le) hB.le,
    mul_nonneg (sq_nonneg t) (mul_pos hA hB).le]

/-- C5 amended: whenever `calculate_habitable_zone` returns a boundary
tuple, `optimistic_inner ≤ conservative_inner ≤ conservative_outer`, and the
middle inequality is strict whenever the determined luminosity is positive.
The claimed bound `conservative_outer ≤ optimistic_outer` is dropped: it
fails for hot stars (see the counterexample). -/
theorem C5_hz_ordering_amended (st : StarEntity) (ci co oi oo : ℝ)
    (h : st.calculate_habitable_zone = .ok (some (ci, co, oi, oo))) :
    oi ≤ ci ∧ ci ≤ co ∧
    (∀ L : ℝ, st.estimate_luminosity = some L → 0 < L → ci < co) := by
  unfold StarEntity.calculate_habitable_zone at h
  cases hL : st.estimate_luminosity with
  | none => rw [hL] at h; simp at h
  | some L =>
      simp only [hL] at h
      by_cases hneg : L < 0
      · rw [if_pos hneg] at h; simp at h
      · rw [if_neg hneg] at h
        by_cases hpos : 0 < sRunawayGreenhouse (st.hzTeff - 5780) ∧
            0 < sMaxGreenhouse (st.hzTeff - 5780) ∧
            0 < sRecentVenus (st.hzTeff - 5780) ∧ 0 < sEarlyMars (st.hzTeff - 5780)
        · rw [if_pos hpos] at h
          obtain ⟨hrg, hmg, hrv, hem⟩ := hpos
          simp only [Except.ok.injEq, Option.some.injEq, Prod.mk.injEq] at h
          obtain ⟨h1, h2, h3, h4⟩ := h
          have hts1 : st.hzTeff - 5780 < 4976 := by
            by_contra hc
            push_neg at hc
            exact absurd hmg (not_lt.mpr (sMaxGreenhouse_nonpos _ hc))
          have hts2 : -6156 < st.hzTeff - 5780 := by
            by_contra hc
            push_neg at hc
            exact absurd hem (not_lt.mpr (sEarlyMars_nonpos _ hc))
          have hord1 : sRunawayGreenhouse (st.hzTeff - 5780) <
              sRecentVenus (st.hzTeff - 5780) := flux_rv_gt_run _ hts2 hts1
          have hord2 : sMaxGreenhouse (st.hzTeff - 5780) <
              sRunawayGreenhouse (st.hzTeff - 5780) := flux_run_gt_mgh _ hts2 hts1
          have hL0 : (0 : ℝ) ≤ L := not_lt.mp hneg
          have hsqrun : (0 : ℝ) < Real.sqrt ((sRunawayGreenhouse (st.hzTeff - 5780) : ℚ) : ℝ) :=
            Real.sqrt_pos.mpr (by exact_mod_cast hrg)
          have hsqmgh : (0 : ℝ) < Real.sqrt ((sMaxGreenhouse (st.hzTeff - 5780) : ℚ) : ℝ) :=
            Real.sqrt_pos.mpr (by exact_mod_cast hmg)
          have hsqle1 : Real.sqrt ((sRunawayGreenhouse (st.hzTeff - 5780) : ℚ) : ℝ) ≤
              Real.sqrt ((sRecentVenus (st.hzTeff - 5780) : ℚ) : ℝ) :=
            Real.sqrt_le_sqrt (by exact_mod_cast hord1.le)
          have hsqlt2 : Real.sqrt ((sMaxGreenhouse (st.hzTeff - 5780) : ℚ) : ℝ) <
              Real.sqrt ((sRunawayGreenhouse (st.hzTeff - 5780) : ℚ) : ℝ) :=
            Real.sqrt_lt_sqrt (by exact_mod_cast hmg.le) (by exact_mod_cast hord2)
          refine ⟨?_, ?_, ?_⟩
          · rw [← h1, ← h3]
            gcongr
          · rw [← h1, ← h2]
            gcongr
          · intro L' hL' hLpos
            obtain rfl : L = L' := by injection hL'
            rw [← h1, ← h2]
            exact div_lt_div_of_pos_left (Real.sqrt_pos.mpr hLpos) hsqmgh hsqlt2
        · rw [if_neg hpos] at h
          simp at h

/-- Counterexample for C5: for a solar-luminosity star at teff = 9780 K
(`t_star = 4000`) the boundary tuple is returned but the conservative outer
edge lies beyond the optimistic outer edge
(`s_max_greenhouse(4000) = 0.290444 < 0.32608448 = s_early_mars(4000)`);
and for a star of recorded luminosity exactly 0 the tuple is (0, 0, 0, 0),
so `conservative_inner < conservative_outer` also fails strictly. -/
theorem C5_hz_ordering_counterexample :
    (starHot.calculate_habitable_zone = .ok (some
      (Real.sqrt ((1 : ℚ) : ℝ) / Real.sqrt ((1042053/1250000 : ℚ) : ℝ),
       Real.sqrt ((1 : ℚ) : ℝ) / Real.sqrt ((72611/250000 : ℚ) : ℝ),
       Real.sqrt ((1 : ℚ) : ℝ) / Real.sqrt ((2011721/1250000 : ℚ) : ℝ),
       Real.sqrt ((1 : ℚ) : ℝ) / Real.sqrt ((509507/1562500 : ℚ) : ℝ))) ∧
     Real.sqrt ((1 : ℚ) : ℝ) / Real.sqrt ((509507/1562500 : ℚ) : ℝ) <
       Real.sqrt ((1 : ℚ) : ℝ) / Real.sqrt ((72611/250000 : ℚ) : ℝ)) ∧
    starZeroLum.calculate_habitable_zone = .ok (some (0, 0, 0, 0)) := by
  refine ⟨⟨?_, ?_⟩, ?_⟩
  · have e1 : starHot.estimate_luminosity = some ((1 : ℚ) : ℝ) := by
      simp [StarEntity.estimate_luminosity, StarEntity.luminosity_linear, starHot,
        emptyStar]
    have ht : starHot.hzTeff = 9780 := by
      norm_num [StarEntity.hzTeff, starHot, emptyStar]
    unfold StarEntity.calculate_habitable_zone
    simp only [e1, ht]
    rw [if_neg (by norm_num)]
    have c1 : sRunawayGreenhouse (9780 - 5780) = 1042053/1250000 := by
      norm_num [sRunawayGreenhouse]
    have c2 : sMaxGreenhouse (9780 - 5780) = 72611/250000 := by
      norm_num [sMaxGreenhouse]
    have c3 : sRecentVenus (9780 - 5780) = 2011721/1250000 := by
      norm_num [sRecentVenus]
    have c4 : sEarlyMars (9780 - 5780) = 509507/1562500 := by
      norm_num [sEarlyMars]
    rw [if_pos (by rw [c1, c2, c3, c4]; norm_num)]
    rw [c1, c2, c3, c4]
  · apply div_lt_div_of_pos_left
    · exact Real.sqrt_pos.mpr (by norm_num)
    · exact Real.sqrt_pos.mpr (by norm_num)
    · exact Real.sqrt_lt_sqrt (by norm_num) (by norm_num)
  · have e0 : starZeroLum.estimate_luminosity = some ((0 : ℚ) : ℝ) := by
      simp [StarEntity.estimate_luminosity, StarEntity.luminosity_linear, starZeroLum,
        emptyStar]
    have ht : starZeroLum.hzTeff = 5778 := by
      norm_num [StarEntity.hzTeff, starZeroLum, emptyStar]
    unfold StarEntity.calculate_habitable_zone
    simp only [e0, ht]
    rw [if_neg (by norm_num)]
    rw [if_pos (by norm_num [sRunawayGreenhouse, sMaxGreenhouse, sRecentVenus,
      sEarlyMars])]
    norm_num [Real.sqrt_zero]

/-- Witness for the amended C5 at a solar-luminosity star evaluated at the
polynomial reference temperature (all fluxes are the constant
coefficients). -/
theorem C5_hz_ordering_amended_witness :
    Real.sqrt ((1 : ℚ) : ℝ) / Real.sqrt ((17763/10000 : ℚ) : ℝ) ≤
      Real.sqrt ((1 : ℚ) : ℝ) / Real.sqrt ((10385/10000 : ℚ) : ℝ) ∧
    Real.sqrt ((1 : ℚ) : ℝ) / Real.sqrt ((10385/10000 : ℚ) : ℝ) <
      Real.sqrt ((1 : ℚ) : ℝ) / Real.sqrt ((3507/10000 : ℚ) : ℝ) := by
  have e1 : starSolar.estimate_luminosity = some ((1 : ℚ) : ℝ) := by
    simp [StarEntity.estimate_luminosity, StarEntity.luminosity_linear, starSolar,
      emptyStar]
  have h : starSolar.calculate_habitable_zone = .ok (some
      (Real.sqrt ((1 : ℚ) : ℝ) / Real.sqrt ((10385/10000 : ℚ) : ℝ),
       Real.sqrt ((1 : ℚ) : ℝ) / Real.sqrt ((3507/10000 : ℚ) : ℝ),
       Real.sqrt ((1 : ℚ) : ℝ) / Real.sqrt ((17763/10000 : ℚ) : ℝ),
       Real.sqrt ((1 : ℚ) : ℝ) / Real.sqrt ((3207/10000 : ℚ) : ℝ))) := by
    have ht : starSolar.hzTeff = 5780 := by
      norm_num [StarEntity.hzTeff, starSolar, emptyStar]
    unfold StarEntity.calculate_habitable_zone
    simp only [e1, ht]
    rw [if_neg (by norm_num)]
    have c1 : sRunawayGreenhouse (5780 - 5780) = 10385/10000 := by
      norm_num [sRunawayGreenhouse]
    have c2 : sMaxGreenhouse (5780 - 5780) = 3507/10000 := by
      norm_num [sMaxGreenhouse]
    have c3 : sRecentVenus (5780 - 5780) = 17763/10000 := by
      norm_num [sRecentVenus]
    have c4 : sEarlyMars (5780 - 5780) = 3207/10000 := by
      norm_num [sEarlyMars]
    rw [if_pos (by rw [c1, c2, c3, c4]; norm_num)]
    rw [c1, c2, c3, c4]
  exact ⟨(C5_hz_ordering_amended starSolar _ _ _ _ h).1,
    (C5_hz_ordering_amended starSolar _ _ _ _ h).2.2 ((1 : ℚ) : ℝ) e1 (by norm_num)⟩

/-! ## C2 / C9 — the default engine on fully-empty entities -/

/-- Every factor of the default weight table is enabled. -/
lemma default_enabled_filter :
    defaultConfig.factor_weights.filter (fun p => p.2.enabled) =
      defaultConfig.factor_weights := by
  simp [defaultConfig, defaultWeights]

/-- The default weights sum to exactly 1. -/
lemma default_total : defaultConfig.get_total_weight = 1 := by
  unfold ScoringConfig.get_total_weight
  rw [default_enabled_filter]
  norm_num [defaultConfig, defaultWeights]

/-- Normalization is the identity on the default table. -/
lemma default_nrm : defaultConfig.normalize_weights = defaultNormalizedWeights := by
  unfold ScoringConfig.normalize_weights
  rw [default_total, if_neg (by norm_num : ¬(1 : ℚ) = 0), default_enabled_filter]
  norm_num [defaultConfig, defaultWeights, defaultNormalizedWeights]

/-- The complete evaluation-loop state for the default factor set on the
fully-empty exoplanet/star pair: twelve factors return missing-data results,
while the stellar-luminosity factor returns an applicable neutral result
(an unknown luminosity class is not treated as missing data); the
magnetic-field factor's id is absent from the normalized table, so it gets
the 0.1 fallback weight. -/
lemma default_empty_acc :
    evalFactors defaultConfig defaultNormalizedWeights emptyExoplanet emptyStar
      defaultFactors =
    ⟨[mkOkScore stellarTypeFactor
        (missingDataResult "stellar_type" "stellar_type") (12/100),
      mkOkScore stellarLuminosityFactor
        (okResult "stellar_luminosity" ((5/10 : ℚ) : ℝ)
          "Luminosity class assessment." ConfidenceLevel.low) (8/100),
      mkOkScore stellarAgeFactor
        (missingDataResult "stellar_age" "stellar_age_gyr") (5/100),
      mkOkScore habitableZonePositionFactor
        (missingDataResult "habitable_zone_position" "semi_major_axis_au") (5/100),
      mkOkScore planetRadiusFactor
        (missingDataResult "planet_radius" "planet_radius_earth") (12/100),
      mkOkScore planetMassFactor
        (missingDataResult "planet_mass" "planet_mass_earth") (8/100),
      mkOkScore planetDensityFactor
        (missingDataResult "planet_density" "planet_density") (5/100),
      mkOkScore equilibriumTemperatureFactor
        (missingDataResult "equilibrium_temperature" "equilibrium_temp_k") (10/100),
      mkOkScore surfaceGravityFactor
        (missingDataResult "surface_gravity" "surface_gravity") (5/100),
      mkOkScore orbitalEccentricityFactor
        (missingDataResult "orbital_eccentricity" "orbital_eccentricity") (8/100),
      mkOkScore tidalLockingFactor
        (missingDataResult "tidal_locking" "orbital_period or semi_major_axis") (7/100),
      mkOkScore atmosphereRetentionFactor
        (missingDataResult "atmosphere_retention" "planet_mass or planet_radius") (8/100),
      mkOkScore magneticFieldPotentialFactor
        (missingDataResult "magnetic_field" "planet_mass or planet_radius") (1/10)],
     1, 13,
     ["stellar_type", "stellar_age_gyr", "semi_major_axis_au",
      "planet_radius_earth", "planet_mass_earth", "planet_density",
      "equilibrium_temp_k", "surface_gravity", "orbital_eccentricity",
      "orbital_period or semi_major_axis", "planet_mass or planet_radius",
      "planet_mass or planet_radius"]⟩ := by
  rfl

/-- The clamp at the neutral score written as the rational 5/10. -/
lemma clampScore_half_q : clampScore ((5/10 : ℚ) : ℝ) = 1/2 := by
  rw [show ((5/10 : ℚ) : ℝ) = 1/2 by norm_num]
  exact clampScore_half

/-- Counterexample for C2: on the fully-empty pair the default engine's
data completeness is 1/13, not 0, because the stellar-luminosity factor
reports an applicable result (score 0.5 with an UNKNOWN luminosity class)
instead of a missing-data result. -/
theorem C2_empty_entities_counterexample :
    ¬((evaluate defaultConfig defaultFactors emptyExoplanet
        emptyStar).data_completeness = 0) ∧
    (stellarLuminosityFactor.evaluate emptyExoplanet emptyStar).map
      (fun r => r.is_applicable) = .ok true := by
  constructor
  · simp only [evaluate, default_nrm, default_empty_acc]
    norm_num
  · rfl

/-- C2 amended: on the fully-empty pair the default engine returns without
raising; all thirteen factor scores are 0.5 and the weighted-average total
is 0.5 as claimed, but data completeness is 1/13 (not 0) and the missing
parameters cover only twelve factors: the stellar-luminosity factor is
applicable with a neutral score. -/
theorem C2_empty_entities_amended :
    (evaluate defaultConfig defaultFactors emptyExoplanet
        emptyStar).factor_scores.map (fun e => e.raw_score) =
      List.replicate 13 (1/2) ∧
    (evaluate defaultConfig defaultFactors emptyExoplanet emptyStar).total_score =
      1/2 ∧
    (evaluate defaultConfig defaultFactors emptyExoplanet
        emptyStar).data_completeness = 1/13 ∧
    (evaluate defaultConfig defaultFactors emptyExoplanet
        emptyStar).missing_parameters =
      ["stellar_type", "stellar_age_gyr", "semi_major_axis_au",
       "planet_radius_earth", "planet_mass_earth", "planet_density",
       "equilibrium_temp_k", "surface_gravity", "orbital_eccentricity",
       "orbital_period or semi_major_axis", "planet_mass or planet_radius",
       "planet_mass or planet_radius"] ∧
    (stellarLuminosityFactor.evaluate emptyExoplanet emptyStar).map
      (fun r => r.is_applicable) = .ok true := by
  refine ⟨?_, ?_, ?_, ?_, rfl⟩
  · simp only [evaluate, default_nrm, default_empty_acc]
    simp [mkOkScore, missingDataResult, okResult, List.replicate]
    refine ⟨?_, ?_, ?_⟩ <;> (rw [clampScore_of] <;> norm_num)
  · simp only [evaluate, default_nrm, default_empty_acc]
    simp only [calcTotalScore, weightedAverageScore, mkOkScore, missingDataResult,
      okResult, clampScore_half, clampScore_half_q, defaultConfig]
    norm_num
  · simp only [evaluate, default_nrm, default_empty_acc]
    norm_num
  · simp only [evaluate, default_nrm, default_empty_acc]

/-- C9: the magnetic-field factor's id `"magnetic_field"` differs from the
default weight table's key `"magnetic_field_potential"`; it is therefore
enabled by the unconfigured-id default, absent from the normalized weights,
and weighted with the hard-coded 0.1 fallback during evaluation, so the
weights actually applied by the default engine sum to 1.03 > 1. -/
theorem C9_magnetic_field_weight_mismatch :
    defaultConfig.is_factor_enabled "magnetic_field" = true ∧
    defaultConfig.normalize_weights.lookup "magnetic_field" = none ∧
    (∃ e ∈ (evaluate defaultConfig defaultFactors emptyExoplanet
        emptyStar).factor_scores, e.factor_id = "magnetic_field" ∧ e.weight = 1/10) ∧
    ((evaluate defaultConfig defaultFactors emptyExoplanet
        emptyStar).factor_scores.map (fun e => e.weight)).sum = 103/100 ∧
    (1 : ℚ) < 103/100 := by
  refine ⟨rfl, ?_, ?_, ?_, by norm_num⟩
  · rw [default_nrm]
    rfl
  · refine ⟨mkOkScore magneticFieldPotentialFactor
      (missingDataResult "magnetic_field" "planet_mass or planet_radius") (1/10),
      ?_, rfl, rfl⟩
    simp only [evaluate, default_nrm, default_empty_acc]
    simp
  · simp only [evaluate, default_nrm, default_empty_acc]
    simp only [mkOkScore, List.map_cons, List.map_nil, List.sum_cons, List.sum_nil]
    norm_num

end ExoHab
